import Mathlib

/-!
Shallow embedding of the uptime monitor core (src/main.go).

Conventions:
* Go `time.Time` values are modelled as `Int` timestamps and `time.Duration`
  values as `Int` elapsed amounts, both in seconds.
* Go maps (`endpoints`, `endpointStatus`) are modelled as association lists
  with insert-or-replace semantics; `storeLookup`/`storeInsert` give the
  map read/write used by the handlers.
* Go zero values are kept: an `int` field that the code never sets stays `0`
  (the JSON `omitempty` drops it) and an unset `string` field stays `""`.
* The several `time.Now()` calls inside one Go function are modelled as two
  instants: `tsProbe` for the stamps taken around the probe
  (src/main.go:148-175) and `now` for the locked apply section
  (src/main.go:180-209).
-/

namespace Uptime

/-- `Endpoint` (src/main.go:13-16): a named target URL. -/
structure Endpoint where
  name : String
  url : String
deriving Repr, DecidableEq

/-- `DowntimeRecord` (src/main.go:19-23): one downtime incident. -/
structure DowntimeRecord where
  timestamp : Int
  duration : String
  reason : String
deriving Repr, DecidableEq

/-- `StatusRecord` (src/main.go:26-32): one probe outcome.  `statusCode = 0`
and `error = ""` are the Go zero values meaning "not set". -/
structure StatusRecord where
  timestamp : Int
  isUp : Bool
  responseTime : Int
  statusCode : Nat
  error : String
deriving Repr, DecidableEq

/-- `EndpointStatus` (src/main.go:35-42): aggregate per-endpoint state. -/
structure EndpointStatus where
  name : String
  url : String
  currentStatus : String
  lastChecked : Int
  history : List StatusRecord
  recentDowntime : List DowntimeRecord
deriving Repr, DecidableEq

/-- `checkInterval = 30 * time.Minute` (src/main.go:48), in seconds. -/
def checkIntervalSeconds : Nat := 30 * 60

/-- `historyWindow = 10 * time.Hour` (src/main.go:49), in seconds. -/
def historyWindow : Int := 10 * 3600

/-- The probe is issued with `http.Get(endpoint.URL)` (src/main.go:149),
i.e. Go's `http.DefaultClient`, whose `Timeout` field is the zero
`Duration`; in `net/http` a zero `Timeout` means no timeout at all.  So no
request timeout is configured for the probe. -/
def probeClientTimeoutSeconds : Option Nat := none

/-- `getStatusString` (src/main.go:212-217). -/
def getStatusString (isUp : Bool) : String :=
  if isUp then "UP" else "DOWN"

/-- `getLast5Downtimes` (src/main.go:117-122): the last 5 records of the
slice when it is longer than 5, the whole slice otherwise
(`downtimes[len(downtimes)-5:]`). -/
def getLast5Downtimes (downtimes : List DowntimeRecord) : List DowntimeRecord :=
  if downtimes.length ≤ 5 then downtimes
  else downtimes.drop (downtimes.length - 5)

/-- Models Go's `time.Duration.String` (standard library, not part of this
repository), used at src/main.go:192-193 to render `time.Since(ts)`: a
decimal amount followed by a unit suffix.  The only property of the rendered
text this development relies on is that it is never the literal
`"ongoing"`. -/
def durationString (d : Int) : String := toString d ++ "s"

/-- The closing step of the downtime block (src/main.go:189-195): if the
last element of the slice has `Duration == "ongoing"`, overwrite that
`Duration` in place with the elapsed time since its start, rendered as a
string; every other element is untouched. -/
def closeLastOngoing (now : Int) : List DowntimeRecord → List DowntimeRecord
  | [] => []
  | [d] =>
      if d.duration = "ongoing" then
        [{ d with duration := durationString (now - d.timestamp) }]
      else [d]
  | d :: d' :: rest => d :: closeLastOngoing now (d' :: rest)

/-- Outcome of `http.Get`: either a transport error (non-nil `err`) or a
response carrying a status code. -/
inductive ProbeResult where
  | failure (msg : String)
  | response (code : Nat)
deriving Repr, DecidableEq

/-- The classification part of `checkEndpoint` (src/main.go:147-178): builds
the `StatusRecord` and the optional new `DowntimeRecord` from the probe
outcome.  On error: `IsUp=false`, `Error` set, `StatusCode` left at its zero
value.  Otherwise `IsUp=true`, `StatusCode` set, then overridden to
`IsUp=false` (with a downtime record) when the code is `>= 400`. -/
def classify (tsProbe rt : Int) : ProbeResult → StatusRecord × Option DowntimeRecord
  | .failure msg =>
      ({ timestamp := tsProbe, isUp := false, responseTime := rt,
         statusCode := 0, error := msg },
       some { timestamp := tsProbe, duration := "ongoing", reason := msg })
  | .response code =>
      if 400 ≤ code then
        ({ timestamp := tsProbe, isUp := false, responseTime := rt,
           statusCode := code, error := "" },
         some { timestamp := tsProbe, duration := "ongoing",
                reason := "HTTP Status " ++ toString code })
      else
        ({ timestamp := tsProbe, isUp := true, responseTime := rt,
           statusCode := code, error := "" }, none)

/-- The locked apply section of `checkEndpoint` (src/main.go:180-209),
restricted to one `EndpointStatus` value: set `LastChecked` and
`CurrentStatus`, append the record to `History`, run the downtime block
(close the previous ongoing record, then append the new one) only when a
downtime record was built, and finally prune `History` to entries with
timestamp strictly after `now - historyWindow`
(`record.Timestamp.After(cutoff)`). -/
def applyToStatus (s : EndpointStatus) (now : Int) (status : StatusRecord)
    (downtime : Option DowntimeRecord) : EndpointStatus :=
  { s with
    lastChecked := now
    currentStatus := getStatusString status.isUp
    history := (s.history ++ [status]).filter
      (fun r => decide (now - historyWindow < r.timestamp))
    recentDowntime :=
      match downtime with
      | none => s.recentDowntime
      | some d => closeLastOngoing now s.recentDowntime ++ [d] }

/-- Association-list read modelling Go map indexing `m[k]`. -/
def storeLookup {α : Type} : List (String × α) → String → Option α
  | [], _ => none
  | (k', v) :: rest, k => if k' = k then some v else storeLookup rest k

/-- Association-list write modelling Go map assignment `m[k] = v`
(insert-or-replace). -/
def storeInsert {α : Type} : List (String × α) → String → α → List (String × α)
  | [], k, v => [(k, v)]
  | (k', v') :: rest, k, v =>
      if k' = k then (k, v) :: rest else (k', v') :: storeInsert rest k v

/-- The guarded store mutation of `checkEndpoint` (src/main.go:180-209) over
the whole `endpointStatus` map: a silent no-op when the name is absent
(`if s, exists := endpointStatus[endpoint.Name]; exists`). -/
def applyCheckResult (st : List (String × EndpointStatus)) (name : String)
    (now : Int) (status : StatusRecord) (downtime : Option DowntimeRecord) :
    List (String × EndpointStatus) :=
  match storeLookup st name with
  | none => st
  | some s => storeInsert st name (applyToStatus s now status downtime)

/-- The whole of `checkEndpoint` (src/main.go:147-210) for one
`EndpointStatus` value: classify the probe outcome, then apply it. -/
def checkOnce (s : EndpointStatus) (outcome : ProbeResult)
    (tsProbe now rt : Int) : EndpointStatus :=
  let (status, downtime) := classify tsProbe rt outcome
  applyToStatus s now status downtime

/-- The `EndpointStatus` built by the registration handler
(src/main.go:75-80): `Name` and `URL` copied from the request, `History` and
`RecentDowntime` empty; `CurrentStatus` and `LastChecked` are not mentioned
in the composite literal, so they take the Go zero values `""` and the zero
time (modelled `0`). -/
def freshStatus (name url : String) : EndpointStatus :=
  { name := name, url := url, currentStatus := "", lastChecked := 0,
    history := [], recentDowntime := [] }

/-- The two shared maps guarded by `mu` (src/main.go:44-47). -/
structure ServerState where
  endpoints : List (String × Endpoint)
  endpointStatus : List (String × EndpointStatus)
deriving Repr, DecidableEq

/-- The POST branch of `handleEndpoint` (src/main.go:64-86) after a
successful decode: under the lock it writes the endpoint into `endpoints`
and a fresh status into `endpointStatus`, then writes the HTTP response.
The second component lists the checks the handler dispatches immediately
(e.g. as goroutines): the source starts none, so it is always empty. -/
def register (st : ServerState) (e : Endpoint) : ServerState × List Endpoint :=
  ({ endpoints := storeInsert st.endpoints e.name e
     endpointStatus := storeInsert st.endpointStatus e.name (freshStatus e.name e.url) },
   [])

/-- `getStatus` (src/main.go:88-115): under the read lock, build a copy of
the whole status map in which each `History` is filtered to records with
timestamp strictly after `time.Now() - historyWindow` and each
`RecentDowntime` is cut to `getLast5Downtimes`. -/
def getStatusSnapshot (st : List (String × EndpointStatus)) (now : Int) :
    List (String × EndpointStatus) :=
  st.map (fun p =>
    (p.1,
     { name := p.2.name, url := p.2.url, currentStatus := p.2.currentStatus,
       lastChecked := p.2.lastChecked,
       history := p.2.history.filter
         (fun r => decide (now - historyWindow < r.timestamp)),
       recentDowntime := getLast5Downtimes p.2.recentDowntime }))

/-- Pass count of the scheduler loop `for { checkAllEndpoints(); <-ticker.C }`
(src/main.go:124-132): one pass runs before the first wait on the ticker and
one more per elapsed tick, so after `n` ticks `n + 1` passes have run. -/
def monitorPasses (ticksElapsed : Nat) : Nat := ticksElapsed + 1

/-- Start time (seconds after process start) of the scheduler's `k`-th check
pass: pass 0 runs immediately, and each tick of the
`time.NewTicker(checkInterval)` ticker (src/main.go:125) starts the next
pass `checkIntervalSeconds` later. -/
def schedulerPassTime (k : Nat) : Nat := k * checkIntervalSeconds

/-- `n` consecutive failing checks (transport error `msg`) applied to a
freshly registered endpoint, the `k`-th at time `k`. -/
def failRun (name url msg : String) : Nat → EndpointStatus
  | 0 => freshStatus name url
  | n + 1 => checkOnce (failRun name url msg n) (.failure msg) n n 0

/-- The per-endpoint states the program can actually produce: the fresh
state written by registration, closed under `checkEndpoint` applications. -/
inductive Reachable : EndpointStatus → Prop
  | init (name url : String) : Reachable (freshStatus name url)
  | step (s : EndpointStatus) (outcome : ProbeResult) (tsProbe now rt : Int) :
      Reachable s → Reachable (checkOnce s outcome tsProbe now rt)

/-- A concrete failing probe record, as `classify` builds it for a transport
error: `IsUp=false`, `Error` set, `StatusCode` at its zero value. -/
def sampleDownRecord : StatusRecord :=
  { timestamp := 0, isUp := false, responseTime := 0, statusCode := 0,
    error := "connection refused" }

/-- A concrete endpoint state holding one failing record, used to evaluate
the snapshot read at concrete instants. -/
def sampleDownStatus : EndpointStatus :=
  { name := "svc1", url := "http://a", currentStatus := "DOWN",
    lastChecked := 0, history := [sampleDownRecord], recentDowntime := [] }

/-- A concrete successful probe record with status code 200. -/
def sampleUpRecord : StatusRecord :=
  { timestamp := 80, isUp := true, responseTime := 1, statusCode := 200,
    error := "" }

/-- A concrete endpoint state holding one successful record. -/
def sampleUpStatus : EndpointStatus :=
  { name := "svc1", url := "http://a", currentStatus := "UP",
    lastChecked := 90, history := [sampleUpRecord], recentDowntime := [] }

/-! ### Helper lemmas -/

theorem storeLookup_storeInsert_self {α : Type} (st : List (String × α))
    (k : String) (v : α) : storeLookup (storeInsert st k v) k = some v := by
  induction st with
  | nil => simp [storeInsert, storeLookup]
  | cons p rest ih =>
      by_cases h : p.1 = k
      · simp [storeInsert, h, storeLookup]
      · simp [storeInsert, h, storeLookup, ih]

theorem durationString_ne_ongoing (d : Int) : durationString d ≠ "ongoing" := by
  intro h
  have hdata : (toString d ++ "s").data = "ongoing".data := congrArg String.data h
  rw [String.data_append] at hdata
  have hs : ("s" : String).data = ['s'] := rfl
  rw [hs] at hdata
  have hlast : ((toString d).data ++ ['s']).getLast? = "ongoing".data.getLast? := by
    rw [hdata]
  simp [List.getLast?_concat] at hlast

theorem closeLastOngoing_length (now : Int) (l : List DowntimeRecord) :
    (closeLastOngoing now l).length = l.length := by
  induction l with
  | nil => rfl
  | cons d rest ih =>
      cases rest with
      | nil => by_cases h : d.duration = "ongoing" <;> simp [closeLastOngoing, h]
      | cons d' rest' => simpa [closeLastOngoing] using ih

theorem closeLastOngoing_not_ongoing (now : Int) (l : List DowntimeRecord)
    (h : ∀ d ∈ l.dropLast, d.duration ≠ "ongoing") :
    ∀ d ∈ closeLastOngoing now l, d.duration ≠ "ongoing" := by
  induction l with
  | nil => intro d hd; simp [closeLastOngoing] at hd
  | cons a rest ih =>
      cases rest with
      | nil =>
          intro d hd
          by_cases ha : a.duration = "ongoing"
          · simp [closeLastOngoing, ha] at hd
            rw [hd]
            exact durationString_ne_ongoing _
          · simp [closeLastOngoing, ha] at hd
            rw [hd]
            exact ha
      | cons b rest' =>
          intro d hd
          rcases (by simpa [closeLastOngoing] using hd :
              d = a ∨ d ∈ closeLastOngoing now (b :: rest')) with rfl | hd'
          · exact h d (by simp)
          · refine ih ?_ d hd'
            intro x hx
            exact h x (by simpa using Or.inr hx)

theorem ongoing_last_of_dropLast (l : List DowntimeRecord)
    (h : ∀ d ∈ l.dropLast, d.duration ≠ "ongoing") :
    (l.filter (fun d => d.duration = "ongoing")).length ≤ 1 ∧
    (∀ d ∈ l, d.duration = "ongoing" → l.getLast? = some d) := by
  rcases l.eq_nil_or_concat with rfl | ⟨l', a, rfl⟩
  · exact ⟨by simp, by simp⟩
  · rw [List.concat_eq_append] at h ⊢
    rw [List.dropLast_concat] at h
    have hnil : l'.filter (fun d => d.duration = "ongoing") = [] := by
      simp only [List.filter_eq_nil_iff]
      intro d hd
      simpa using h d hd
    constructor
    · rw [List.filter_append, hnil]
      simp [List.filter]
      split <;> simp
    · intro d hd hdo
      rcases List.mem_append.mp hd with h1 | h1
      · exact absurd hdo (h d h1)
      · simp at h1
        rw [h1, List.getLast?_concat]

theorem checkOnce_recentDowntime_failure (s : EndpointStatus) (msg : String)
    (tsProbe now rt : Int) :
    (checkOnce s (.failure msg) tsProbe now rt).recentDowntime =
      closeLastOngoing now s.recentDowntime ++
        [{ timestamp := tsProbe, duration := "ongoing", reason := msg }] := rfl

theorem checkOnce_recentDowntime_response_ge (s : EndpointStatus) (code : Nat)
    (hc : 400 ≤ code) (tsProbe now rt : Int) :
    (checkOnce s (.response code) tsProbe now rt).recentDowntime =
      closeLastOngoing now s.recentDowntime ++
        [{ timestamp := tsProbe, duration := "ongoing",
           reason := "HTTP Status " ++ toString code }] := by
  simp [checkOnce, classify, hc, applyToStatus]

theorem checkOnce_recentDowntime_response_lt (s : EndpointStatus) (code : Nat)
    (hc : ¬ 400 ≤ code) (tsProbe now rt : Int) :
    (checkOnce s (.response code) tsProbe now rt).recentDowntime =
      s.recentDowntime := by
  simp [checkOnce, classify, hc, applyToStatus]

theorem reachable_dropLast_not_ongoing (s : EndpointStatus) (h : Reachable s) :
    ∀ d ∈ s.recentDowntime.dropLast, d.duration ≠ "ongoing" := by
  induction h with
  | init name url => simp [freshStatus]
  | step s outcome tsProbe now rt _ ih =>
      cases outcome with
      | failure msg =>
          rw [checkOnce_recentDowntime_failure, List.dropLast_concat]
          exact closeLastOngoing_not_ongoing now _ ih
      | response code =>
          by_cases hc : 400 ≤ code
          · rw [checkOnce_recentDowntime_response_ge s code hc, List.dropLast_concat]
            exact closeLastOngoing_not_ongoing now _ ih
          · rw [checkOnce_recentDowntime_response_lt s code hc]
            exact ih

/-! ### Claim theorems -/

/-- C1 counterexample: six consecutive failing checks on a freshly
registered endpoint leave the stored `recentDowntime` slice with 6 entries —
`checkEndpoint` appends without trimming, so the stored sequence is not
bounded by 5 and no FIFO eviction happens in the store. -/
theorem stored_recentDowntime_six_after_six_failures :
    (failRun "svc1" "http://example.invalid" "connection refused" 6).recentDowntime.length = 6 ∧
    decide ((failRun "svc1" "http://example.invalid" "connection refused" 6).recentDowntime.length ≤ 5) = false := by
  constructor <;> decide

/-- C1 (amended): the stored `recentDowntime` grows by exactly one entry per
failing check and is never trimmed, so after `n` consecutive failing checks
on a fresh endpoint its stored length is `n`; the 5-entry bound holds only
at read time, where `getLast5Downtimes` keeps the newest `min 5 n` entries
and drops the oldest first. -/
theorem recentDowntime_bound_read_time :
    (∀ l : List DowntimeRecord,
        (getLast5Downtimes l).length = min 5 l.length ∧
        getLast5Downtimes l = l.drop (l.length - 5)) ∧
    (∀ name url msg n,
        (failRun name url msg n).recentDowntime.length = n) := by
  constructor
  · intro l
    unfold getLast5Downtimes
    by_cases h : l.length ≤ 5
    · rw [if_pos h]
      refine ⟨(Nat.min_eq_right h).symm, ?_⟩
      have h0 : l.length - 5 = 0 := by omega
      rw [h0, List.drop_zero]
    · rw [if_neg h]
      refine ⟨?_, rfl⟩
      rw [List.length_drop, Nat.min_eq_left (by omega)]
      omega
  · intro name url msg n
    induction n with
    | zero => rfl
    | succ n ih =>
        show (checkOnce (failRun name url msg n) (.failure msg)
            n n 0).recentDowntime.length = n + 1
        rw [checkOnce_recentDowntime_failure]
        simp [closeLastOngoing_length, ih]

/-- C2 counterexample: the probe is issued through `http.Get`, whose default
client configures no timeout at all — in particular not a 10-second one. -/
theorem probe_timeout_not_ten_seconds :
    decide (probeClientTimeoutSeconds = some 10) = false := by decide

/-- C2 (amended): the probe's HTTP client has no timeout configured
(`http.Get` uses `http.DefaultClient`, zero `Timeout`), so the probe's
duration is not bounded by any fixed timeout. -/
theorem probe_client_no_timeout : probeClientTimeoutSeconds = none := rfl

/-- C3 counterexample: the scheduler tick interval is not 30 seconds. -/
theorem checkInterval_not_thirty_seconds :
    decide (checkIntervalSeconds = 30) = false := by decide

/-- C3 (amended): the scheduler is a single repeating ticker with a fixed
interval of 30 minutes (1800 seconds), and it runs one full check pass
immediately at start before waiting for the first tick — `n` elapsed ticks
give `n + 1` passes, pass `k` starting at `k` intervals. -/
theorem scheduler_interval_thirty_minutes_immediate_first_pass :
    checkIntervalSeconds = 1800 ∧ monitorPasses 0 = 1 ∧
    schedulerPassTime 0 = 0 ∧
    (∀ n, monitorPasses (n + 1) = monitorPasses n + 1) ∧
    (∀ k, schedulerPassTime (k + 1) = schedulerPassTime k + checkIntervalSeconds) := by
  refine ⟨rfl, rfl, rfl, fun n => rfl, fun k => ?_⟩
  simp [schedulerPassTime, Nat.succ_mul]

/-- C4 counterexample: registering `svc1` leaves `currentStatus` at the Go
zero value `""`, not `"Pending"` — the handler's composite literal never
sets `CurrentStatus`. -/
theorem registered_status_not_pending :
    (storeLookup (register ⟨[], []⟩ ⟨"svc1", "http://a"⟩).1.endpointStatus
        "svc1").map EndpointStatus.currentStatus = some "" ∧
    decide ((storeLookup (register ⟨[], []⟩ ⟨"svc1", "http://a"⟩).1.endpointStatus
        "svc1").map EndpointStatus.currentStatus = some "Pending") = false := by
  constructor <;> decide

/-- C4 (amended): every registration (including re-registration of an
existing name) creates/resets the status entry with `currentStatus` equal to
the empty string (the Go zero value; the string `"Pending"` appears nowhere
in the program), zero `lastChecked`, and empty history and
`recentDowntime`. -/
theorem register_resets_status_zero_values (st : ServerState) (e : Endpoint) :
    storeLookup (register st e).1.endpointStatus e.name =
      some { name := e.name, url := e.url, currentStatus := "",
             lastChecked := 0, history := [], recentDowntime := [] } := by
  simp [register, storeLookup_storeInsert_self, freshStatus]

/-- C5 counterexample: registering an endpoint dispatches no immediate
check — `handleEndpoint` only writes the two maps and returns; it starts no
goroutine and performs no probe. -/
theorem register_no_immediate_check :
    (register ⟨[], []⟩ ⟨"svc1", "http://a"⟩).2 = [] ∧
    (register ⟨[], []⟩ ⟨"svc1", "http://a"⟩).2.length = 0 := ⟨rfl, rfl⟩

/-- C5 (amended): registration inserts/overwrites both the registry entry
and the status entry, but schedules no immediate out-of-band check; a newly
registered endpoint is first probed only by the next scheduler pass. -/
theorem register_updates_maps_dispatches_nothing (st : ServerState) (e : Endpoint) :
    storeLookup (register st e).1.endpoints e.name = some e ∧
    storeLookup (register st e).1.endpointStatus e.name =
      some (freshStatus e.name e.url) ∧
    (register st e).2 = [] := by
  refine ⟨?_, ?_, rfl⟩ <;> simp [register, storeLookup_storeInsert_self]

/-- C6: in every reachable endpoint state, every `recentDowntime` entry
except possibly the last has a finalized duration, hence at most one entry
is `"ongoing"` and such an entry is always the last; and a failing check
first closes the previous ongoing record (overwriting its duration with a
finalized elapsed-time string) and then appends the new ongoing one. -/
theorem reachable_at_most_one_ongoing_last (s : EndpointStatus)
    (h : Reachable s) :
    (∀ d ∈ s.recentDowntime.dropLast, d.duration ≠ "ongoing") ∧
    (s.recentDowntime.filter (fun d => d.duration = "ongoing")).length ≤ 1 ∧
    (∀ d ∈ s.recentDowntime, d.duration = "ongoing" →
        s.recentDowntime.getLast? = some d) ∧
    (∀ msg tsProbe now rt,
        (checkOnce s (.failure msg) tsProbe now rt).recentDowntime =
          closeLastOngoing now s.recentDowntime ++
            [{ timestamp := tsProbe, duration := "ongoing", reason := msg }] ∧
        ∀ d ∈ closeLastOngoing now s.recentDowntime, d.duration ≠ "ongoing") := by
  have hd := reachable_dropLast_not_ongoing s h
  obtain ⟨h1, h2⟩ := ongoing_last_of_dropLast s.recentDowntime hd
  exact ⟨hd, h1, h2, fun msg tsProbe now rt =>
    ⟨checkOnce_recentDowntime_failure s msg tsProbe now rt,
     closeLastOngoing_not_ongoing now _ hd⟩⟩

/-- C6 witness: after one failing check on a fresh endpoint the state holds
exactly one ongoing record, and the invariant proved for reachable states
bounds the ongoing count by one there. -/
theorem reachable_at_most_one_ongoing_last_witness :
    ((checkOnce (freshStatus "svc1" "http://a") (.failure "connection refused")
        0 0 0).recentDowntime.filter (fun d => d.duration = "ongoing")).length = 1 ∧
    ((checkOnce (freshStatus "svc1" "http://a") (.failure "connection refused")
        0 0 0).recentDowntime.filter (fun d => d.duration = "ongoing")).length ≤ 1 :=
  ⟨by decide,
   (reachable_at_most_one_ongoing_last _
      (Reachable.step _ (.failure "connection refused") 0 0 0
        (Reachable.init "svc1" "http://a"))).2.1⟩

/-- C7: applying a check result to an existing endpoint stores a state whose
`currentStatus` is `getStatusString` of the applied record's `isUp`, and
(when the record's timestamp is within the pruning window of `now`, which
holds in every real run since both instants lie inside one call) the applied
record is the last element of the stored history. -/
theorem currentStatus_matches_last_history (st : List (String × EndpointStatus))
    (name : String) (now : Int) (status : StatusRecord)
    (downtime : Option DowntimeRecord) (s : EndpointStatus)
    (hs : storeLookup st name = some s)
    (ht : now - historyWindow < status.timestamp) :
    storeLookup (applyCheckResult st name now status downtime) name =
      some (applyToStatus s now status downtime) ∧
    (applyToStatus s now status downtime).history.getLast? = some status ∧
    (applyToStatus s now status downtime).currentStatus =
      getStatusString status.isUp := by
  refine ⟨?_, ?_, rfl⟩
  · simp only [applyCheckResult, hs]
    exact storeLookup_storeInsert_self st name _
  · simp only [applyToStatus]
    rw [List.filter_append]
    have hkeep : [status].filter
        (fun r => decide (now - historyWindow < r.timestamp)) = [status] := by
      simp [ht]
    rw [hkeep, List.getLast?_concat]

/-- C7 witness: a successful check applied to a freshly registered `svc1`
yields a stored state whose status string is `"UP"` and whose history ends
with the applied record. -/
theorem currentStatus_matches_last_history_witness :
    storeLookup (applyCheckResult [("svc1", freshStatus "svc1" "http://a")]
        "svc1" 100 sampleUpRecord none) "svc1" =
      some (applyToStatus (freshStatus "svc1" "http://a") 100 sampleUpRecord none) ∧
    (applyToStatus (freshStatus "svc1" "http://a") 100
        sampleUpRecord none).history.getLast? = some sampleUpRecord ∧
    (applyToStatus (freshStatus "svc1" "http://a") 100
        sampleUpRecord none).currentStatus = getStatusString sampleUpRecord.isUp :=
  currentStatus_matches_last_history [("svc1", freshStatus "svc1" "http://a")]
    "svc1" 100 sampleUpRecord none (freshStatus "svc1" "http://a")
    (by decide) (by decide)

/-- C8: the probe classification — a transport error gives `isUp=false`,
the error description set and the status code at its unset zero value (and
an ongoing downtime record); a response with code below 400 gives
`isUp=true` with the code set, no error and no downtime record; a response
with code at least 400 gives `isUp=false` with the code set and no error
string. -/
theorem probe_outcome_classification (tsProbe rt : Int) :
    (∀ msg, classify tsProbe rt (.failure msg) =
        ({ timestamp := tsProbe, isUp := false, responseTime := rt,
           statusCode := 0, error := msg },
         some { timestamp := tsProbe, duration := "ongoing", reason := msg })) ∧
    (∀ code, code < 400 →
        (classify tsProbe rt (.response code)).1.isUp = true ∧
        (classify tsProbe rt (.response code)).1.statusCode = code ∧
        (classify tsProbe rt (.response code)).1.error = "" ∧
        (classify tsProbe rt (.response code)).2 = none) ∧
    (∀ code, 400 ≤ code →
        (classify tsProbe rt (.response code)).1.isUp = false ∧
        (classify tsProbe rt (.response code)).1.statusCode = code ∧
        (classify tsProbe rt (.response code)).1.error = "") := by
  refine ⟨fun msg => rfl, fun code hc => ?_, fun code hc => ?_⟩
  · have hn : ¬ 400 ≤ code := by omega
    simp [classify, hn]
  · simp [classify, hc]

/-- C8 witness: the classification evaluated at a transport error, a 200
response and a 503 response. -/
theorem probe_outcome_classification_witness :
    (200 : Nat) < 400 ∧ (400 : Nat) ≤ 503 ∧
    (classify 0 0 (.response 200)).1.isUp = true ∧
    (classify 0 0 (.response 503)).1.isUp = false ∧
    (classify 0 0 (.failure "no such host")).1.error = "no such host" :=
  ⟨by decide, by decide,
   ((probe_outcome_classification 0 0).2.1 200 (by decide)).1,
   ((probe_outcome_classification 0 0).2.2 503 (by decide)).1,
   by rw [((probe_outcome_classification 0 0).1 "no such host")]⟩

/-- C9 counterexample: with one record at timestamp 0 and no intervening
write, the snapshot read at instant 30000 keeps the record while the read at
instant 40000 prunes it past the recomputed 10-hour cutoff, so the two reads
return different data. -/
theorem snapshot_reads_differ_across_cutoff :
    (getStatusSnapshot [("svc1", sampleDownStatus)] 30000).map
        (fun p => p.2.history.length) = [1] ∧
    (getStatusSnapshot [("svc1", sampleDownStatus)] 40000).map
        (fun p => p.2.history.length) = [0] ∧
    decide (getStatusSnapshot [("svc1", sampleDownStatus)] 30000 =
        getStatusSnapshot [("svc1", sampleDownStatus)] 40000) = false := by
  refine ⟨?_, ?_, ?_⟩ <;> decide

/-- C9 (amended): the snapshot read mutates nothing, but its output depends
on the read instant through the recomputed cutoff; two reads with no
intervening write return identical data exactly when no stored history
record crosses the 10-hour cutoff between the two instants (in particular,
two reads at the same instant always agree). -/
theorem snapshot_read_same_window_idempotent
    (st : List (String × EndpointStatus)) (now₁ now₂ : Int)
    (h : ∀ p ∈ st, ∀ r ∈ p.2.history,
        (now₁ - historyWindow < r.timestamp ↔ now₂ - historyWindow < r.timestamp)) :
    getStatusSnapshot st now₁ = getStatusSnapshot st now₂ := by
  unfold getStatusSnapshot
  refine List.map_congr_left fun p hp => ?_
  have hfil : p.2.history.filter
        (fun r => decide (now₁ - historyWindow < r.timestamp)) =
      p.2.history.filter
        (fun r => decide (now₂ - historyWindow < r.timestamp)) :=
    List.filter_congr fun r hr => decide_eq_decide.mpr (h p hp r hr)
  rw [hfil]

/-- C9 witness: two reads 100 seconds apart whose window keeps the same
records return identical snapshots. -/
theorem snapshot_read_same_window_idempotent_witness :
    getStatusSnapshot [("svc1", sampleDownStatus)] 100 =
      getStatusSnapshot [("svc1", sampleDownStatus)] 200 :=
  snapshot_read_same_window_idempotent [("svc1", sampleDownStatus)] 100 200
    (by decide)

/-- C10: every history record in a returned snapshot entry passed the
read-time filter, so it is strictly newer than the recomputed cutoff
`now - 10h` — a snapshot never contains a record older than 10 hours,
independently of store-side pruning. -/
theorem snapshot_history_within_window (st : List (String × EndpointStatus))
    (now : Int) (q : String × EndpointStatus)
    (hq : q ∈ getStatusSnapshot st now) (r : StatusRecord)
    (hr : r ∈ q.2.history) :
    now - r.timestamp < historyWindow ∧ now - historyWindow < r.timestamp := by
  rcases List.mem_map.mp hq with ⟨p, hp, rfl⟩
  have hmem := List.mem_filter.mp hr
  have hlt : now - historyWindow < r.timestamp := of_decide_eq_true hmem.2
  exact ⟨by omega, hlt⟩

/-- C10 witness: the snapshot of a store holding one 20-second-old record,
read at instant 100, contains that record, and the theorem bounds its age by
the 10-hour window. -/
theorem snapshot_history_within_window_witness :
    (("svc1", sampleUpStatus) ∈ getStatusSnapshot [("svc1", sampleUpStatus)] 100) ∧
    sampleUpRecord ∈ ("svc1", sampleUpStatus).2.history ∧
    (100 - sampleUpRecord.timestamp < historyWindow ∧
      100 - historyWindow < sampleUpRecord.timestamp) :=
  ⟨by decide, by decide,
   snapshot_history_within_window [("svc1", sampleUpStatus)] 100
     ("svc1", sampleUpStatus) (by decide) sampleUpRecord (by decide)⟩

end Uptime
